import Mathlib

/-!
Verification development for the Accounting-App repository (a Django-style
small-business accounting backend).  The Python request handlers and model
classes are shallowly embedded: querysets become `List` filters, `Decimal`
amounts become exact rationals (`ℚ`), calendar dates used only for day
arithmetic become day numbers (`ℤ`), nullable columns become `Option`, and a
handler body wrapped in `try/except` becomes a total function (or a function
out of an explicit exception value where the exception path matters).
Timestamp bookkeeping columns (`created_at`, `updated_at`, which Django
refreshes on every save) and the filesystem side effects of image handling are
outside the embedding.
-/

namespace Accounting


/-- The `{success, message}` response envelope together with the HTTP status
code used throughout `src/users/views.py` and `src/products/views.py`. -/
structure Resp where
  status : Nat
  success : Bool
  message : String
deriving Repr, DecidableEq

/-- `users_utils.is_required` (src/users/utils.py): a request value is missing
when it is `""` or `None`. -/
def is_required (v : Option String) : Bool :=
  v == some "" || v == none

/-- Modelled from the spec: the `Invoice` model class itself is not under
`src/` (only its serializers in `src/products/serializer.py`, its admin
registration and its view callers are).  Fields follow the spec's data model —
"Invoice / InvoiceItems — sales/purchase invoice header + line items, status
lifecycle (Pending→Paid/Overdue)", "monetary fields are decimal", soft-delete
via `is_deleted`, "every entity scoped to an owning `user`" — together with the
serializer field lists.  Nullable columns are `Option`, matching the
`blank=True, null=True` style of every model class that is under `src/`
(e.g. `PurchaseOrders.total` in src/products/models.py). -/
structure Invoice where
  invoice_id : Nat
  user_id : Nat
  client_id : Option Nat
  invoice_number : Option String
  invoice_type : String
  invoice_status : String
  issue_date : Option ℤ
  payment_due : Option ℤ
  total : Option ℚ
  is_deleted : Bool
deriving Repr, DecidableEq

/-! ### C1 — OutstandingReceivables aging buckets
Embeds `OutstandingReceivables.get` (src/users/views.py:2767-2825). -/

/-- The five aging ranges of the `buckets` dict (src/users/views.py:2794-2800). -/
inductive AgingRange where
  | not_due
  | d0_30
  | d31_60
  | d61_90
  | d90_plus
deriving Repr, DecidableEq

/-- The `buckets` dict: one running `Decimal` amount per range. -/
structure AgingBuckets where
  not_due : ℚ
  d0_30 : ℚ
  d31_60 : ℚ
  d61_90 : ℚ
  d90_plus : ℚ
deriving Repr, DecidableEq

/-- `amt = inv.total or Decimal('0.00')` (src/users/views.py:2804): a `NULL`
total counts as zero (and `Decimal('0.00')` is falsy, so a zero total is
replaced by the identical default). -/
def outstanding_amt (i : Invoice) : ℚ :=
  i.total.getD 0

/-- The bucket an outstanding invoice falls into (src/users/views.py:2808-2821):
a missing `payment_due` or `days <= 0` is "Not due", then `1 <= days <= 30`,
`31 <= days <= 60`, `61 <= days <= 90`, and everything else is "90+". -/
def bucket_of (asOf : ℤ) (i : Invoice) : AgingRange :=
  match i.payment_due with
  | none => .not_due
  | some due =>
    let days := asOf - due
    if days ≤ 0 then .not_due
    else if 1 ≤ days ∧ days ≤ 30 then .d0_30
    else if 31 ≤ days ∧ days ≤ 60 then .d31_60
    else if 61 ≤ days ∧ days ≤ 90 then .d61_90
    else .d90_plus

/-- One iteration of the bucket-filling loop (src/users/views.py:2802-2821). -/
def AgingBuckets.add (b : AgingBuckets) (asOf : ℤ) (i : Invoice) : AgingBuckets :=
  match bucket_of asOf i with
  | .not_due => { b with not_due := b.not_due + outstanding_amt i }
  | .d0_30 => { b with d0_30 := b.d0_30 + outstanding_amt i }
  | .d31_60 => { b with d31_60 := b.d31_60 + outstanding_amt i }
  | .d61_90 => { b with d61_90 := b.d61_90 + outstanding_amt i }
  | .d90_plus => { b with d90_plus := b.d90_plus + outstanding_amt i }

/-- The bucket-filling loop over the outstanding queryset, starting from the
all-zero dict. -/
def aging_buckets (asOf : ℤ) (l : List Invoice) : AgingBuckets :=
  l.foldl (fun b i => b.add asOf i) ⟨0, 0, 0, 0, 0⟩

/-- The sum of the five reported bucket amounts. -/
def AgingBuckets.totalOf (b : AgingBuckets) : ℚ :=
  b.not_due + b.d0_30 + b.d31_60 + b.d61_90 + b.d90_plus

/-- `outstanding_qs` (src/users/views.py:2767-2779): the user's non-deleted
sales invoices, optionally narrowed to one client, issued on or before the
as-of date (`issue_date__isnull=False, issue_date__lte=as_of`), excluding the
ones whose status is `Paid` case-insensitively (`status__iexact="Paid"`). -/
def sales_outstanding (db : List Invoice) (uid : Nat) (client_filter : Option Nat)
    (asOf : ℤ) : List Invoice :=
  (((db.filter fun i =>
        i.user_id == uid && i.invoice_type == "sales" && !i.is_deleted).filter fun i =>
      match client_filter with
      | some cid => i.client_id == some cid
      | none => true).filter fun i =>
    match i.issue_date with
    | some d => decide (d ≤ asOf)
    | none => false).filter fun i =>
      !(i.invoice_status.toLower == "paid")

/-- `total_outstanding` (src/users/views.py:2781-2782): `Sum('total')` over the
outstanding queryset — SQL `SUM` skips `NULL`s, and an all-`NULL`/empty sum
falls back to `Decimal('0.00')` through `or`. -/
def total_outstanding (db : List Invoice) (uid : Nat) (client_filter : Option Nat)
    (asOf : ℤ) : ℚ :=
  ((sales_outstanding db uid client_filter asOf).filterMap Invoice.total).sum

lemma bucket_add_total (b : AgingBuckets) (asOf : ℤ) (i : Invoice) :
    (b.add asOf i).totalOf = b.totalOf + outstanding_amt i := by
  unfold AgingBuckets.add AgingBuckets.totalOf
  cases bucket_of asOf i <;> simp <;> ring

lemma aging_fold_total (asOf : ℤ) (l : List Invoice) (b : AgingBuckets) :
    (l.foldl (fun b i => b.add asOf i) b).totalOf
      = b.totalOf + (l.map outstanding_amt).sum := by
  induction l generalizing b with
  | nil => simp
  | cons i t ih =>
    simp only [List.foldl_cons, List.map_cons, List.sum_cons]
    rw [ih, bucket_add_total]
    ring

/-- `SUM('total')` (skip the `NULL`s) agrees with summing `total or 0`. -/
lemma filterMap_total_eq_map_getD (l : List Invoice) :
    (l.filterMap Invoice.total).sum = (l.map outstanding_amt).sum := by
  induction l with
  | nil => rfl
  | cons i t ih =>
    cases h : i.total with
    | none =>
      simp [List.filterMap_cons, h, outstanding_amt, ih]
    | some q =>
      simp [List.filterMap_cons, h, outstanding_amt, ih]

/-- Which range `bucket_of` selects, characterised by days past due. -/
lemma bucket_of_spec (asOf : ℤ) (i : Invoice) :
    (bucket_of asOf i = .not_due ↔
      i.payment_due = none ∨ ∃ d, i.payment_due = some d ∧ asOf - d ≤ 0) ∧
    (bucket_of asOf i = .d0_30 ↔
      ∃ d, i.payment_due = some d ∧ 1 ≤ asOf - d ∧ asOf - d ≤ 30) ∧
    (bucket_of asOf i = .d31_60 ↔
      ∃ d, i.payment_due = some d ∧ 31 ≤ asOf - d ∧ asOf - d ≤ 60) ∧
    (bucket_of asOf i = .d61_90 ↔
      ∃ d, i.payment_due = some d ∧ 61 ≤ asOf - d ∧ asOf - d ≤ 90) ∧
    (bucket_of asOf i = .d90_plus ↔
      ∃ d, i.payment_due = some d ∧ 91 ≤ asOf - d) := by
  cases h : i.payment_due with
  | none => simp [bucket_of, h]
  | some due =>
    have hb : bucket_of asOf i =
        if asOf - due ≤ 0 then AgingRange.not_due
        else if 1 ≤ asOf - due ∧ asOf - due ≤ 30 then AgingRange.d0_30
        else if 31 ≤ asOf - due ∧ asOf - due ≤ 60 then AgingRange.d31_60
        else if 61 ≤ asOf - due ∧ asOf - due ≤ 90 then AgingRange.d61_90
        else AgingRange.d90_plus := by
      simp only [bucket_of, h]
    rw [hb]
    split_ifs with h1 h2 h3 h4 <;> simp_all <;> omega

/-- C1: for every user, client filter and as-of date, the OutstandingReceivables
report assigns each outstanding (status not `Paid`, case-insensitively) sales
invoice issued on or before the as-of date to exactly one of the five aging
buckets — `bucket_of` is a total function into the five ranges, with a missing
or non-positive days-past-due landing in "Not due", `1..30` in "0-30",
`31..60` in "31-60", `61..90` in "61-90" and `91+` in "90+" — and the five
bucket amounts sum exactly to the reported `total_outstanding`. -/
theorem claim_C1 (db : List Invoice) (uid : Nat) (client_filter : Option Nat)
    (asOf : ℤ) :
    (aging_buckets asOf (sales_outstanding db uid client_filter asOf)).totalOf
        = total_outstanding db uid client_filter asOf ∧
    ∀ i ∈ sales_outstanding db uid client_filter asOf,
      (bucket_of asOf i = .not_due ↔
        i.payment_due = none ∨ ∃ d, i.payment_due = some d ∧ asOf - d ≤ 0) ∧
      (bucket_of asOf i = .d0_30 ↔
        ∃ d, i.payment_due = some d ∧ 1 ≤ asOf - d ∧ asOf - d ≤ 30) ∧
      (bucket_of asOf i = .d31_60 ↔
        ∃ d, i.payment_due = some d ∧ 31 ≤ asOf - d ∧ asOf - d ≤ 60) ∧
      (bucket_of asOf i = .d61_90 ↔
        ∃ d, i.payment_due = some d ∧ 61 ≤ asOf - d ∧ asOf - d ≤ 90) ∧
      (bucket_of asOf i = .d90_plus ↔
        ∃ d, i.payment_due = some d ∧ 91 ≤ asOf - d) := by
  constructor
  · rw [aging_buckets, aging_fold_total, total_outstanding,
      filterMap_total_eq_map_getD]
    simp [AgingBuckets.totalOf]
  · intro i _
    exact bucket_of_spec asOf i



def c1_inv1 : Invoice :=
  { invoice_id := 1, user_id := 1, client_id := none, invoice_number := some "I1",
    invoice_type := "sales", invoice_status := "Pending",
    issue_date := some 10, payment_due := some 90, total := some 50,
    is_deleted := false }

def c1_inv2 : Invoice :=
  { invoice_id := 2, user_id := 1, client_id := none, invoice_number := some "I2",
    invoice_type := "sales", invoice_status := "Pending",
    issue_date := some 10, payment_due := none, total := none,
    is_deleted := false }

theorem claim_C1_witness :
    (aging_buckets 100 (sales_outstanding [c1_inv1, c1_inv2] 1 none 100)).totalOf
      = total_outstanding [c1_inv1, c1_inv2] 1 none 100 :=
  (claim_C1 [c1_inv1, c1_inv2] 1 none 100).1

/-! ### C2 — ExpenseReportPage category percentage breakdown
Embeds the breakdown of `ExpenseReportPage.get` (src/users/views.py:2125-2162).
The breakdown is a pure function of the filtered expense queryset
(`expense_pr`), which is taken here as the input list. -/

/-- Modelled from the spec: the `UserExpense` model class is not under `src/`
(only its serializer and the expense views are).  The spec's data model says
"UserExpense — dated, categorized expense entries" and "monetary fields are
decimal"; the add-expense endpoint (src/users/views.py:2010-2042) requires
`expense_name`, `amount`, `category` and `expense_date`, so those are
non-null. -/
structure UserExpense where
  expense_id : Nat
  user_id : Nat
  expense_name : String
  category : String
  amount : ℚ
  expense_date : ℤ
  description : String
deriving Repr, DecidableEq

/-- `total_expense_amount` (src/users/views.py:2125-2126): `Sum('amount')`
over the filtered queryset. -/
def total_expense_amount (l : List UserExpense) : ℚ :=
  (l.map UserExpense.amount).sum

/-- The five named `expense_categories` (src/users/views.py:2127-2133). -/
def expense_categories : List String :=
  ["Food & Dining", "Transport", "Shopping", "Bills", "Entertainment"]

/-- `totals_map.get(category, Decimal('0.00'))` (src/users/views.py:2138-2147):
the summed amount of one category in the filtered queryset. -/
def category_total (l : List UserExpense) (c : String) : ℚ :=
  ((l.filter fun e => e.category == c).map UserExpense.amount).sum

/-- `main_categories_spent` (src/users/views.py:2145-2153). -/
def main_categories_spent (l : List UserExpense) : ℚ :=
  (expense_categories.map (category_total l)).sum

/-- Python's `round` on `Decimal` rounds half to even. -/
def round_half_even (q : ℚ) : ℤ :=
  if q - ⌊q⌋ < 1 / 2 then ⌊q⌋
  else if 1 / 2 < q - ⌊q⌋ then ⌊q⌋ + 1
  else if 2 ∣ ⌊q⌋ then ⌊q⌋ else ⌊q⌋ + 1

/-- `round(percentage, 2)` (src/users/views.py:2151, 2161). -/
def round2 (q : ℚ) : ℚ :=
  (round_half_even (q * 100) : ℚ) / 100

/-- `category_percentages` (src/users/views.py:2134-2162): when the filtered
total is positive, one entry per named category with its rounded share of the
total, plus an `Other` entry when the remaining share is positive; otherwise
the empty list. -/
def category_percentages (l : List UserExpense) : List (String × ℚ) :=
  let total := total_expense_amount l
  if total > 0 then
    let main := expense_categories.map fun c =>
      (c, round2 (category_total l c / total * 100))
    let other := total - main_categories_spent l
    if other > 0 then main ++ [("Other", round2 (other / total * 100))] else main
  else []

lemma round_half_even_bound (q : ℚ) : |(round_half_even q : ℚ) - q| ≤ 1 / 2 := by
  have h1 : (⌊q⌋ : ℚ) ≤ q := Int.floor_le q
  have h2 : q < ⌊q⌋ + 1 := Int.lt_floor_add_one q
  unfold round_half_even
  split_ifs with ha hb hc <;> rw [abs_le] <;> constructor <;> push_cast <;> linarith

lemma round2_bound (q : ℚ) : |round2 q - q| ≤ 1 / 200 := by
  have h := round_half_even_bound (q * 100)
  unfold round2
  have : (round_half_even (q * 100) : ℚ) / 100 - q
      = ((round_half_even (q * 100) : ℚ) - q * 100) / 100 := by ring
  rw [this, abs_div]
  rw [show |(100 : ℚ)| = 100 by norm_num]
  linarith [h]

lemma map_round2_sum_bound (xs : List ℚ) :
    |((xs.map round2).sum - xs.sum)| ≤ xs.length * (1 / 200) := by
  induction xs with
  | nil => simp
  | cons x t ih =>
    simp only [List.map_cons, List.sum_cons, List.length_cons]
    have hx := round2_bound x
    calc |round2 x + (t.map round2).sum - (x + t.sum)|
        = |(round2 x - x) + ((t.map round2).sum - t.sum)| := by ring_nf
      _ ≤ |round2 x - x| + |(t.map round2).sum - t.sum| := abs_add _ _
      _ ≤ 1 / 200 + t.length * (1 / 200) := by linarith
      _ = (t.length + 1) * (1 / 200) := by ring
      _ = ((t.length + 1 : ℕ) : ℚ) * (1 / 200) := by push_cast; ring

lemma category_total_cons (e : UserExpense) (t : List UserExpense) (c : String) :
    category_total (e :: t) c
      = (if e.category == c then e.amount else 0) + category_total t c := by
  by_cases h : e.category == c <;>
    simp [category_total, List.filter_cons, h]

lemma single_expense_main_le (e : UserExpense) (h : 0 ≤ e.amount) :
    (if e.category == "Food & Dining" then e.amount else 0)
      + ((if e.category == "Transport" then e.amount else 0)
      + ((if e.category == "Shopping" then e.amount else 0)
      + ((if e.category == "Bills" then e.amount else 0)
      + ((if e.category == "Entertainment" then e.amount else 0) + 0))))
      ≤ e.amount := by
  by_cases h1 : e.category = "Food & Dining"
  · simp [h1]
  by_cases h2 : e.category = "Transport"
  · simp [h1, h2]
  by_cases h3 : e.category = "Shopping"
  · simp [h1, h2, h3]
  by_cases h4 : e.category = "Bills"
  · simp [h1, h2, h3, h4]
  by_cases h5 : e.category = "Entertainment"
  · simp [h1, h2, h3, h4, h5]
  · simp [h1, h2, h3, h4, h5, h]

lemma main_spent_le_total (l : List UserExpense) (h : ∀ e ∈ l, 0 ≤ e.amount) :
    main_categories_spent l ≤ total_expense_amount l := by
  induction l with
  | nil => simp [main_categories_spent, total_expense_amount, category_total,
      expense_categories]
  | cons e t ih =>
    have he : 0 ≤ e.amount := h e (List.mem_cons_self e t)
    have ht : ∀ x ∈ t, 0 ≤ x.amount := fun x hx => h x (List.mem_cons_of_mem e hx)
    have hsingle := single_expense_main_le e he
    have hrec := ih ht
    simp only [main_categories_spent, expense_categories, List.map_cons,
      List.map_nil, List.sum_cons, List.sum_nil, category_total_cons,
      total_expense_amount] at hsingle hrec ⊢
    linarith

lemma total_expense_cons (e : UserExpense) (t : List UserExpense) :
    total_expense_amount (e :: t) = e.amount + total_expense_amount t := by
  simp [total_expense_amount]

/-- C2: on any filtered expense list with non-negative amounts, the category
percentage entries sum to within `0.03` of `100` when the total is positive
(each of the at most six entries is rounded to two decimals, so the half-even
rounding error is at most `6 × 0.005`), and when the total is zero the
breakdown has no non-zero entry (it is the empty list, so every entry in it is
vacuously `0`). -/
theorem claim_C2 (l : List UserExpense) (h : ∀ e ∈ l, 0 ≤ e.amount) :
    (total_expense_amount l > 0 →
      |((category_percentages l).map Prod.snd).sum - 100| ≤ 3 / 100) ∧
    (total_expense_amount l = 0 →
      ∀ p ∈ category_percentages l, p.2 = 0) := by
  constructor
  · intro htot
    have hT : total_expense_amount l ≠ 0 := ne_of_gt htot
    have hMle := main_spent_le_total l h
    -- the exact (unrounded) shares of the five named categories
    set T := total_expense_amount l with hTdef
    set xs : List ℚ :=
      expense_categories.map (fun c => category_total l c / T * 100) with hxs
    have hxs_sum : xs.sum = main_categories_spent l / T * 100 := by
      simp only [hxs, expense_categories, List.map_cons, List.map_nil,
        List.sum_cons, List.sum_nil, main_categories_spent, category_total]
      field_simp
      ring
    have hmain_snd :
        ((expense_categories.map fun c =>
            (c, round2 (category_total l c / T * 100))).map Prod.snd)
          = xs.map round2 := by
      simp [hxs, List.map_map]
    have hxs_len : xs.length = 5 := by
      simp [hxs, expense_categories]
    have hbound := map_round2_sum_bound xs
    rw [hxs_len] at hbound
    by_cases hother : T - main_categories_spent l > 0
    · -- six entries: the five named categories plus Other
      have hpct : category_percentages l
          = (expense_categories.map fun c =>
              (c, round2 (category_total l c / T * 100)))
            ++ [("Other", round2 ((T - main_categories_spent l) / T * 100))] := by
        rw [category_percentages]
        simp only [← hTdef, if_pos htot, if_pos hother]
      rw [hpct]
      rw [List.map_append, List.sum_append, hmain_snd]
      simp only [List.map_cons, List.map_nil, List.sum_cons, List.sum_nil]
      have hy := round2_bound ((T - main_categories_spent l) / T * 100)
      have hexact : xs.sum + (T - main_categories_spent l) / T * 100 = 100 := by
        rw [hxs_sum]
        field_simp
        ring
      have hb1 := abs_le.mp hbound
      have hb2 := abs_le.mp hy
      push_cast at hb1
      rw [abs_le]
      constructor <;> linarith [hb1.1, hb1.2, hb2.1, hb2.2]
    · -- five entries: Other is exactly zero
      have hzero : T - main_categories_spent l = 0 := by linarith [hMle]
      have hpct : category_percentages l
          = expense_categories.map fun c =>
              (c, round2 (category_total l c / T * 100)) := by
        rw [category_percentages]
        simp only [← hTdef, if_pos htot, if_neg hother]
      rw [hpct, hmain_snd]
      have hexact : xs.sum = 100 := by
        have hM : main_categories_spent l = T := by linarith
        rw [hxs_sum, hM, div_self hT]
        norm_num
      have hb1 := abs_le.mp hbound
      push_cast at hb1
      rw [abs_le]
      constructor <;> linarith [hb1.1, hb1.2]
  · intro htot p hp
    rw [category_percentages] at hp
    simp only [htot] at hp
    norm_num at hp



def c2_e1 : UserExpense :=
  { expense_id := 1, user_id := 1, expense_name := "Lunch",
    category := "Food & Dining", amount := 30, expense_date := 0,
    description := "" }

def c2_e2 : UserExpense :=
  { expense_id := 2, user_id := 1, expense_name := "Gift",
    category := "Misc", amount := 70, expense_date := 0,
    description := "" }

theorem claim_C2_witness :
    |((category_percentages [c2_e1, c2_e2]).map Prod.snd).sum - 100| ≤ 3 / 100
    ∧ ∀ p ∈ category_percentages [], p.2 = 0 :=
  ⟨(claim_C2 [c2_e1, c2_e2]
      (by intro e he; fin_cases he <;> norm_num [c2_e1, c2_e2])).1
      (by norm_num [total_expense_amount, c2_e1, c2_e2]),
   (claim_C2 [] (by simp)).2 rfl⟩

/-! ### C3 / C4 — purchase order numbering (`PurchaseOrders.save`)
Embeds `PurchaseOrders.save` (src/products/models.py:123-148) together with the
`unique=True` database constraint on `order_number`
(src/products/models.py:101-102).  Only the insert path of `save` is modelled:
the claims are about creating orders. -/

/-- The `User` model (src/users/models.py:25-62); `fullname` is taken non-null
because registration requires it (src/users/views.py:148-149). -/
structure User where
  user_id : Nat
  fullname : String
  email : Option String
  password : Option String
  phone_number : Option String
  is_active : Bool
  is_admin : Bool
  is_deleted : Bool
deriving Repr, DecidableEq

/-- The `PurchaseOrders` model (src/products/models.py:95-121): nullable
user/client foreign keys, a nullable but unique `order_number`, decimal
totals. -/
structure PurchaseOrder where
  order_id : Nat
  user_id : Option Nat
  client_id : Option Nat
  order_number : Option String
  total : Option ℚ
  order_status : String
  is_deleted : Bool
deriving Repr, DecidableEq

/-- `''.join([c for c in self.user.fullname if c.isalpha()])[:2].upper()`
(src/products/models.py:125-126), over ASCII text: keep the alphabetic
characters, take the first two, uppercase them. -/
def name_initials (fullname : String) : String :=
  String.mk (((fullname.toList.filter Char.isAlpha).take 2).map Char.toUpper)

/-- `base_prefix = f"{prefix}-{year}"` (src/products/models.py:128). -/
def base_number_stem (fullname : String) (year : ℤ) : String :=
  name_initials fullname ++ "-" ++ toString year

/-- The order numbers of the saving user's orders that start with the stem
(`filter(user=self.user, order_number__startswith=base_prefix)`,
src/products/models.py:131-134; `NULL` numbers never match `startswith`). -/
def matching_numbers (db : List PurchaseOrder) (uid : Nat) (stem : String) :
    List String :=
  db.filterMap fun o =>
    match o.order_number with
    | some s =>
      if o.user_id == some uid && stem.toList.isPrefixOf s.toList then some s
      else none
    | none => none

/-- `order_by('-order_number').first()` (src/products/models.py:134): the
largest matching order number under the backend's (binary) string collation,
embedded as Lean's lexicographic order on `String`. -/
def latest_order_number (db : List PurchaseOrder) (uid : Nat) (stem : String) :
    Option String :=
  (matching_numbers db uid stem).foldl
    (fun acc s =>
      match acc with
      | none => some s
      | some t => if t < s then some s else some t) none

/-- `f"{last_seq + 1:02d}"` (src/products/models.py:140): zero-pad to (at
least) two digits. -/
def pad2 (n : Nat) : String :=
  let s := toString n
  if s.length < 2 then "0" ++ s else s

/-- CPython `int(...)` restricted to the digit-run tails that occur in order
numbers: a non-empty all-digit string parses, anything else raises (and the
`except` falls back to `"01"`). -/
def parse_int_digits (s : String) : Option Nat :=
  if !s.toList.isEmpty && s.toList.all Char.isDigit then
    some (s.toList.foldl (fun a c => a * 10 + (c.toNat - 48)) 0)
  else none

/-- `latest_order.order_number.split('-')[-1]` (src/products/models.py:139). -/
def last_dash_component (s : String) : String :=
  String.mk ((s.toList.splitOn '-').getLastD [])

/-- `next_seq` (src/products/models.py:136-144): the trailing integer of the
latest matching number plus one, zero-padded, falling back to `"01"` when
there is no (truthy) latest number or its tail does not parse. -/
def next_seq (latest : Option String) : String :=
  match latest with
  | some s =>
    if s == "" then "01"
    else
      match parse_int_digits (last_dash_component s) with
      | some n => pad2 (n + 1)
      | none => "01"
  | none => "01"

/-- `self.order_number = f"{base_prefix}-{next_seq}"`
(src/products/models.py:146). -/
def gen_order_number (db : List PurchaseOrder) (u : User) (year : ℤ) : String :=
  base_number_stem u.fullname year ++ "-"
    ++ next_seq (latest_order_number db u.user_id (base_number_stem u.fullname year))

/-- Python falsiness of a nullable `CharField`: `None` or `""`. -/
def number_falsy (v : Option String) : Bool :=
  v == none || v == some ""

/-- The database insert under the `unique=True` constraint on `order_number`
(src/products/models.py:101-102): inserting a duplicate non-null number raises
`IntegrityError` and stores nothing; `NULL` numbers are exempt from SQL
uniqueness. -/
def db_insert_unique (db : List PurchaseOrder) (o : PurchaseOrder) :
    Except String (List PurchaseOrder) :=
  match o.order_number with
  | some s =>
    if db.any fun p => p.order_number == some s then
      Except.error "UNIQUE constraint failed: PurchaseOrders.order_number"
    else Except.ok (db ++ [o])
  | none => Except.ok (db ++ [o])

/-- The in-memory row as it stands right before the `INSERT`
(src/products/models.py:124-146): when the order has a falsy `order_number`
and a user, the generated number is assigned, otherwise the row is unchanged. -/
def order_to_insert (db : List PurchaseOrder) (o : PurchaseOrder)
    (saving_user : Option User) (year : ℤ) : PurchaseOrder :=
  match saving_user with
  | some u =>
    if number_falsy o.order_number then
      { o with order_number := some (gen_order_number db u year) }
    else o
  | none => o

/-- `PurchaseOrders.save` for a new row (src/products/models.py:123-148):
assign the number when needed, then insert under the unique constraint. -/
def purchase_orders_save (db : List PurchaseOrder) (o : PurchaseOrder)
    (saving_user : Option User) (year : ℤ) : Except String (List PurchaseOrder) :=
  db_insert_unique db (order_to_insert db o saving_user year)

/-- C3 claim-side initials: "the first two alphabetic characters of the user's
fullname uppercased". -/
def claim_initials (fullname : String) : String :=
  String.mk (((fullname.toList.filter Char.isAlpha).map Char.toUpper).take 2)

/-- C3 claim-side sequence: look up the user's existing order with the maximum
order number starting with the stem, take its trailing integer plus one
zero-padded to two digits, or `"01"` when no such order exists or the trailing
part is not an integer. -/
def claim_seq (db : List PurchaseOrder) (uid : Nat) (stem : String) : String :=
  match (matching_numbers db uid stem).max? with
  | some m =>
    match parse_int_digits (last_dash_component m) with
    | some n => pad2 (n + 1)
    | none => "01"
  | none => "01"

/-- C3 claim-side order number `P-Y-S`. -/
def claim_order_number (db : List PurchaseOrder) (u : User) (year : ℤ) : String :=
  claim_initials u.fullname ++ "-" ++ toString year ++ "-"
    ++ claim_seq db u.user_id (claim_initials u.fullname ++ "-" ++ toString year)

lemma claim_initials_eq (fullname : String) :
    claim_initials fullname = name_initials fullname := by
  unfold claim_initials name_initials
  rw [List.map_take]

lemma fold_pick_eq_max (l : List String) :
    l.foldl
      (fun acc s =>
        match acc with
        | none => some s
        | some t => if t < s then some s else some t) none = l.max? := by
  have hstep : ∀ (t : List String) (a : String),
      t.foldl
        (fun acc s =>
          match acc with
          | none => some s
          | some t => if t < s then some s else some t) (some a)
        = some (t.foldl max a) := by
    intro t
    induction t with
    | nil => intro a; rfl
    | cons x xs ih =>
      intro a
      simp only [List.foldl_cons]
      have : (if a < x then some x else some a) = some (max a x) := by
        rcases lt_or_ge a x with hc | hc
        · rw [if_pos hc, max_eq_right hc.le]
        · rw [if_neg (not_lt.mpr hc), max_eq_left hc]
      rw [this, ih]
  cases l with
  | nil => rfl
  | cons a t =>
    rw [show (a :: t).max? = some (t.foldl max a) from rfl]
    simp only [List.foldl_cons]
    exact hstep t a

lemma latest_eq_max (db : List PurchaseOrder) (uid : Nat) (stem : String) :
    latest_order_number db uid stem = (matching_numbers db uid stem).max? :=
  fold_pick_eq_max _

lemma next_seq_eq_claim_seq (db : List PurchaseOrder) (uid : Nat) (stem : String) :
    next_seq (latest_order_number db uid stem) = claim_seq db uid stem := by
  rw [latest_eq_max]
  unfold next_seq claim_seq
  cases h : (matching_numbers db uid stem).max? with
  | none => rfl
  | some m =>
    by_cases hm : m = ""
    · subst hm
      have hcomp : parse_int_digits (last_dash_component "") = none := by decide
      simp [hcomp]
    · simp [hm]

lemma gen_eq_claim (db : List PurchaseOrder) (u : User) (year : ℤ) :
    gen_order_number db u year = claim_order_number db u year := by
  unfold gen_order_number claim_order_number base_number_stem
  rw [claim_initials_eq, next_seq_eq_claim_seq]

/-- C3: saving a new purchase order with no `order_number` and a user assigns
it `P-Y-S`: `P` the first two alphabetic characters of the user's fullname
uppercased, `Y` the current year, and `S` obtained from that user's existing
order with the maximum order number starting with `P-Y` by adding one to its
trailing integer and zero-padding to two digits, or `"01"` when no such order
exists or its tail is not an integer; the row is then inserted under the
unique constraint. -/
theorem claim_C3 (db : List PurchaseOrder) (o : PurchaseOrder) (u : User)
    (year : ℤ) (h : o.order_number = none) :
    purchase_orders_save db o (some u) year
      = db_insert_unique db
          { o with order_number := some (claim_order_number db u year) } := by
  unfold purchase_orders_save
  have hins : order_to_insert db o (some u) year
      = { o with order_number := some (claim_order_number db u year) } := by
    unfold order_to_insert
    rw [h]
    simp only [number_falsy]
    norm_num
    rw [gen_eq_claim]
  rw [hins]

/-- Concrete run of C3: user "John Doe" with an existing order `JD-2025-01`
gets `JD-2025-02`. -/
def c3_user : User :=
  { user_id := 1, fullname := "John Doe", email := some "jo@example.com",
    password := none, phone_number := none, is_active := true,
    is_admin := false, is_deleted := false }

def c3_existing : PurchaseOrder :=
  { order_id := 1, user_id := some 1, client_id := none,
    order_number := some "JO-2025-01", total := none,
    order_status := "Pending", is_deleted := false }

def c3_new : PurchaseOrder :=
  { order_id := 2, user_id := some 1, client_id := none,
    order_number := none, total := none,
    order_status := "Pending", is_deleted := false }

theorem claim_C3_witness :
    purchase_orders_save [c3_existing] c3_new (some c3_user) 2025
        = db_insert_unique [c3_existing]
            { c3_new with
                order_number := some (claim_order_number [c3_existing] c3_user 2025) }
      ∧ claim_order_number [c3_existing] c3_user 2025 = "JO-2025-02" :=
  ⟨claim_C3 [c3_existing] c3_new c3_user 2025 rfl, by decide⟩

/-- The non-null order numbers currently stored. -/
def stored_numbers (db : List PurchaseOrder) : List String :=
  db.filterMap PurchaseOrder.order_number

/-- One creation request after another: each `save` either stores the order or
fails with `IntegrityError` and stores nothing. -/
def run_saves (year : ℤ) (u : User) (db : List PurchaseOrder) :
    List PurchaseOrder → List PurchaseOrder
  | [] => db
  | o :: rest =>
    match purchase_orders_save db o (some u) year with
    | Except.ok db' => run_saves year u db' rest
    | Except.error _ => run_saves year u db rest

lemma mem_stored_iff (db : List PurchaseOrder) (s : String) :
    s ∈ stored_numbers db ↔ ∃ p ∈ db, p.order_number = some s := by
  simp [stored_numbers]

lemma insert_preserves_nodup {db db2 : List PurchaseOrder} {p : PurchaseOrder}
    (hins : db_insert_unique db p = Except.ok db2)
    (h : (stored_numbers db).Nodup) : (stored_numbers db2).Nodup := by
  unfold db_insert_unique at hins
  cases hnum : p.order_number with
  | none =>
    rw [hnum] at hins
    cases hins
    simpa [stored_numbers, List.filterMap_append, hnum] using h
  | some s =>
    rw [hnum] at hins
    simp only [] at hins
    split_ifs at hins with hdup
    cases hins
    have hnotmem : s ∉ stored_numbers db := by
      intro hmem
      rw [mem_stored_iff] at hmem
      obtain ⟨q, hq, hqs⟩ := hmem
      have hany : db.any (fun q => q.order_number == some s) = true := by
        rw [List.any_eq_true]
        exact ⟨q, hq, by simp [hqs]⟩
      exact hdup hany
    rw [stored_numbers, List.filterMap_append]
    rw [List.nodup_append]
    refine ⟨h, by simp [hnum], ?_⟩
    intro x hx hx2
    simp [hnum] at hx2
    subst hx2
    exact hnotmem hx

lemma save_preserves_nodup {db db2 : List PurchaseOrder} {o : PurchaseOrder}
    {uo : Option User} {year : ℤ}
    (hsave : purchase_orders_save db o uo year = Except.ok db2)
    (h : (stored_numbers db).Nodup) : (stored_numbers db2).Nodup := by
  unfold purchase_orders_save at hsave
  exact insert_preserves_nodup hsave h

/-- C4: creating any number of purchase orders one after another (for one user
in one year) starting from a table whose stored order numbers are distinct
never yields two stored orders with the same `order_number`: the generated or
provided number is inserted under the `unique=True` constraint, which rejects
duplicates instead of storing them. -/
theorem claim_C4 (u : User) (year : ℤ) (orders : List PurchaseOrder)
    (db : List PurchaseOrder) (h : (stored_numbers db).Nodup) :
    (stored_numbers (run_saves year u db orders)).Nodup := by
  induction orders generalizing db with
  | nil => exact h
  | cons o rest ih =>
    rw [run_saves]
    cases hsave : purchase_orders_save db o (some u) year with
    | ok db2 => exact ih db2 (save_preserves_nodup hsave h)
    | error e => exact ih db h

theorem claim_C4_witness :
    (stored_numbers (run_saves 2025 c3_user [] [c3_new, c3_new, c3_new])).Nodup :=
  claim_C4 c3_user 2025 [c3_new, c3_new, c3_new] [] (by simp [stored_numbers])


/-! ### Application state
One record structure per table the verified endpoints touch.  Line-item tables
(`OrderItems`, `InvoiceItems`) and auxiliary tables (OTP, login history,
company profile) are not referenced by the claims and are not modelled. -/

/-- The `ClientModel` record (src/users/models.py:91-120). -/
structure Client where
  client_id : Nat
  user_id : Option Nat
  client_name : Option String
  email : Option String
  phone_number : Option String
  category : Option String
  is_active : Bool
  is_deleted : Bool
deriving Repr, DecidableEq

/-- The `ProductCategory` record (src/products/models.py:13-26). -/
structure ProductCategory where
  category_id : Nat
  user_id : Option Nat
  category_name : Option String
  is_active : Bool
  is_deleted : Bool
deriving Repr, DecidableEq

/-- The `Products` record (src/products/models.py:29-92), restricted to the
fields the verified endpoints read. -/
structure Product where
  product_id : Nat
  user_id : Option Nat
  name : Option String
  stock_level : Option ℤ
  selling_price : Option ℚ
  cost_price : Option ℚ
  product_image : Option String
  is_active : Bool
  is_deleted : Bool
deriving Repr, DecidableEq

/-- Modelled from the spec: the `ActivityLog` model class is not under `src/`
(only its serializer, admin registration and callers are); the spec calls it an
"append-only audit trail of business events", and the fields follow the
serializer list (`user`, `action`, `title`, `description`, `extra_data`) with
`extra_data` holding the `invoice_id`/`amount` pair the dashboard writes. -/
structure ActivityLog where
  user_id : Nat
  action : String
  title : String
  description : String
  extra_invoice_id : Option Nat
  extra_amount : Option ℚ
deriving Repr, DecidableEq

/-- The relational state seen by the verified handlers. -/
structure AppDB where
  users : List User
  clients : List Client
  categories : List ProductCategory
  products : List Product
  orders : List PurchaseOrder
  invoices : List Invoice
  expenses : List UserExpense
  logs : List ActivityLog
deriving Repr, DecidableEq

/-! ### C5 — delete endpoints
Embeds `ClientDetailView.delete` (src/users/views.py:1248-1264) and
`ProductDetailsView.delete` (src/products/views.py:744-765).  Neither
`BaseModel` (src/base_files/base_models.py) nor any model class overrides
`delete` to set `is_deleted`, and no statement in the codebase ever assigns
`is_deleted = True`; `Model.delete()` is therefore Django's hard row delete,
removing the row by primary key and cascading over `on_delete=CASCADE`
foreign keys. -/

/-- `ClientDetailView.delete`: the integer path parameter can never trip
`is_required`; a missing target returns 404; otherwise the row is hard-deleted
by primary key.  `PurchaseOrders.client` is `on_delete=CASCADE`
(src/products/models.py:99-100) so the client's orders go with it; the invoice
client foreign key is modelled from the spec in the same uniform CASCADE
style.  Cascaded line-item tables are outside the embedding. -/
def client_detail_delete (db : AppDB) (uid cid : Nat) : Resp × AppDB :=
  if !(db.clients.any fun c =>
      c.client_id == cid && c.user_id == some uid && !c.is_deleted) then
    (⟨404, false, "Client not found."⟩, db)
  else
    (⟨200, true, "Client deleted successfully."⟩,
      { db with
        clients := db.clients.filter fun c => !(c.client_id == cid),
        orders := db.orders.filter fun o => !(o.client_id == some cid),
        invoices := db.invoices.filter fun i => !(i.client_id == some cid) })

/-- `ProductDetailsView.delete`: a missing target returns 400
"Product Not Found."; otherwise the image file is removed from disk (a
filesystem effect outside the embedding, assumed to succeed) and the row is
hard-deleted by primary key (the `Products.delete` override only removes the
image before calling the inherited delete).  Cascaded line-item tables are
outside the embedding. -/
def product_details_delete (db : AppDB) (uid pid : Nat) : Resp × AppDB :=
  match db.products.find? fun p =>
      p.product_id == pid && p.user_id == some uid && !p.is_deleted with
  | none => (⟨400, false, "Product Not Found."⟩, db)
  | some _ =>
    (⟨200, true, "Product Deleted Successfully."⟩,
      { db with products := db.products.filter fun p => !(p.product_id == pid) })

/-- C5 as the claim states it, at the client delete endpoint (the claim
quantifies over every delete endpoint, so this instance is implied by it):
after a successful delete the target record is still stored, marked
`is_deleted = true`. -/
def soft_delete_claim : Prop :=
  ∀ (db : AppDB) (uid cid : Nat),
    (∃ c ∈ db.clients, c.client_id = cid ∧ c.user_id = some uid ∧ c.is_deleted = false) →
      ∃ c2 ∈ (client_detail_delete db uid cid).2.clients,
        c2.client_id = cid ∧ c2.is_deleted = true

def c5_client : Client :=
  { client_id := 1, user_id := some 1, client_name := some "Acme",
    email := some "acme@example.com", phone_number := none, category := none,
    is_active := true, is_deleted := false }

def c5_db : AppDB :=
  { users := [], clients := [c5_client], categories := [], products := [],
    orders := [], invoices := [], expenses := [], logs := [] }

/-- C5 counterexample: deleting client 1 of user 1 from a store holding exactly
that client leaves an empty clients table — the record is removed, not marked
`is_deleted` — so the soft-delete claim is false. -/
theorem claim_C5_counterexample : ¬ soft_delete_claim := by
  intro hclaim
  obtain ⟨c2, hc2, _⟩ :=
    hclaim c5_db 1 1 ⟨c5_client, by decide, by decide, by decide, by decide⟩
  have hempty : (client_detail_delete c5_db 1 1).2.clients = [] := by decide
  rw [hempty] at hc2
  cases hc2

/-- C5 amended: every delete endpoint performs a HARD delete — the target row
is removed by primary key (Django `Model.delete`), nothing ever sets the
`is_deleted` flag, every surviving row of the target's table is one of the old
rows unchanged, and the tables without a cascading foreign key onto the target
are untouched (for a client delete, the client's orders and invoices follow
their CASCADE foreign keys). -/
theorem claim_C5_amended :
    (∀ (db : AppDB) (uid cid : Nat),
      (∃ c ∈ db.clients, c.client_id = cid ∧ c.user_id = some uid ∧ c.is_deleted = false) →
        (client_detail_delete db uid cid).1
            = ⟨200, true, "Client deleted successfully."⟩
          ∧ (client_detail_delete db uid cid).2.clients
              = db.clients.filter (fun c => !(c.client_id == cid))
          ∧ (∀ c2 ∈ (client_detail_delete db uid cid).2.clients, c2 ∈ db.clients)
          ∧ (¬ ∃ c2 ∈ (client_detail_delete db uid cid).2.clients, c2.client_id = cid)
          ∧ (client_detail_delete db uid cid).2.users = db.users
          ∧ (client_detail_delete db uid cid).2.categories = db.categories
          ∧ (client_detail_delete db uid cid).2.products = db.products
          ∧ (client_detail_delete db uid cid).2.expenses = db.expenses
          ∧ (client_detail_delete db uid cid).2.logs = db.logs)
    ∧ (∀ (db : AppDB) (uid pid : Nat),
      (∃ p ∈ db.products, p.product_id = pid ∧ p.user_id = some uid ∧ p.is_deleted = false) →
        (product_details_delete db uid pid).1
            = ⟨200, true, "Product Deleted Successfully."⟩
          ∧ (product_details_delete db uid pid).2.products
              = db.products.filter (fun p => !(p.product_id == pid))
          ∧ (∀ p2 ∈ (product_details_delete db uid pid).2.products, p2 ∈ db.products)
          ∧ (¬ ∃ p2 ∈ (product_details_delete db uid pid).2.products, p2.product_id = pid)
          ∧ (product_details_delete db uid pid).2.users = db.users
          ∧ (product_details_delete db uid pid).2.clients = db.clients
          ∧ (product_details_delete db uid pid).2.categories = db.categories
          ∧ (product_details_delete db uid pid).2.orders = db.orders
          ∧ (product_details_delete db uid pid).2.invoices = db.invoices
          ∧ (product_details_delete db uid pid).2.expenses = db.expenses
          ∧ (product_details_delete db uid pid).2.logs = db.logs) := by
  constructor
  · intro db uid cid h
    obtain ⟨c, hc, hcid, huid, hdel⟩ := h
    have hany : (db.clients.any fun c =>
        c.client_id == cid && c.user_id == some uid && !c.is_deleted) = true := by
      rw [List.any_eq_true]
      exact ⟨c, hc, by simp [hcid, huid, hdel]⟩
    have hred : client_detail_delete db uid cid
        = (⟨200, true, "Client deleted successfully."⟩,
            { db with
              clients := db.clients.filter fun c => !(c.client_id == cid),
              orders := db.orders.filter fun o => !(o.client_id == some cid),
              invoices := db.invoices.filter fun i => !(i.client_id == some cid) }) := by
      unfold client_detail_delete
      rw [hany]
      rfl
    rw [hred]
    refine ⟨rfl, rfl, ?_, ?_, rfl, rfl, rfl, rfl, rfl⟩
    · intro c2 hc2
      exact List.mem_of_mem_filter hc2
    · rintro ⟨c2, hc2, hcid2⟩
      have := List.of_mem_filter hc2
      simp [hcid2] at this
  · intro db uid pid h
    obtain ⟨p, hp, hpid, huid, hdel⟩ := h
    have hfind : ∃ q, (db.products.find? fun q =>
        q.product_id == pid && q.user_id == some uid && !q.is_deleted) = some q := by
      rw [← Option.isSome_iff_exists, List.find?_isSome]
      exact ⟨p, hp, by simp [hpid, huid, hdel]⟩
    obtain ⟨q, hq⟩ := hfind
    have hred : product_details_delete db uid pid
        = (⟨200, true, "Product Deleted Successfully."⟩,
            { db with products := db.products.filter fun p => !(p.product_id == pid) }) := by
      unfold product_details_delete
      rw [hq]
    rw [hred]
    refine ⟨rfl, rfl, ?_, ?_, rfl, rfl, rfl, rfl, rfl, rfl, rfl⟩
    · intro p2 hp2
      exact List.mem_of_mem_filter hp2
    · rintro ⟨p2, hp2, hpid2⟩
      have := List.of_mem_filter hp2
      simp [hpid2] at this

def c5_product : Product :=
  { product_id := 7, user_id := some 1, name := some "Widget",
    stock_level := some 3, selling_price := some 5, cost_price := some 2,
    product_image := none, is_active := true, is_deleted := false }

def c5_db2 : AppDB :=
  { users := [], clients := [c5_client], categories := [], products := [c5_product],
    orders := [], invoices := [], expenses := [], logs := [] }

theorem claim_C5_amended_witness :
    (client_detail_delete c5_db2 1 1).2.clients
        = c5_db2.clients.filter (fun c => !(c.client_id == 1))
      ∧ (product_details_delete c5_db2 1 7).2.products
        = c5_db2.products.filter (fun p => !(p.product_id == 7)) :=
  ⟨(claim_C5_amended.1 c5_db2 1 1
      ⟨c5_client, by decide, by decide, by decide, by decide⟩).2.1,
   (claim_C5_amended.2 c5_db2 1 7
      ⟨c5_product, by decide, by decide, by decide, by decide⟩).2.1⟩


/-! ### C6 — SalesByClientReportView monthly chart series
Embeds the chart-series part of `SalesByClientReportView.get`
(src/users/views.py:2379-2417).  Only the year/month structure of dates
matters here, so months are embedded directly; the revenue dict built by the
`TruncMonth` aggregate query is abstracted as a lookup function (the loop
reads it with `revenue_map.get(cur, Decimal('0.00'))`). -/

/-- A first-of-month date, as produced by `datetime(year, month, 1)`. -/
structure Month where
  year : ℤ
  month : ℤ
deriving Repr, DecidableEq

/-- `add_months` (src/users/views.py:2386-2389).  Python `//` and `%` with the
positive divisor `12` are Euclidean quotient and remainder. -/
def add_months (src : Month) (k : ℤ) : Month :=
  { year := src.year + (src.month - 1 + k) / 12,
    month := (src.month - 1 + k) % 12 + 1 }

/-- Months totally ordered by their index; `month_idx` is the number of months
since month 1 of year 0. -/
def month_idx (m : Month) : ℤ :=
  12 * m.year + (m.month - 1)

/-- `cur <= end_month` on first-of-month dates: lexicographic on
(year, month). -/
def month_le (a b : Month) : Bool :=
  decide (a.year < b.year)
    || (decide (a.year = b.year) && decide (a.month ≤ b.month))

/-- A real calendar month has `month` between 1 and 12. -/
def month_valid (m : Month) : Prop :=
  1 ≤ m.month ∧ m.month ≤ 12

/-- The `while cur <= end_month` loop (src/users/views.py:2410-2417), with an
explicit iteration budget; `month_walk` instantiates the budget with the
loop's exact trip count, one month per iteration. -/
def month_walk_fuel : Nat → Month → Month → List Month
  | 0, _, _ => []
  | fuel + 1, cur, stop =>
    if month_le cur stop then cur :: month_walk_fuel fuel (add_months cur 1) stop
    else []

def month_walk (cur stop : Month) : List Month :=
  month_walk_fuel (month_idx stop - month_idx cur + 1).toNat cur stop

/-- `cur.strftime('%b')` (src/users/views.py:2414). -/
def month_label (m : Month) : String :=
  ["Jan", "Feb", "Mar", "Apr", "May", "Jun",
    "Jul", "Aug", "Sep", "Oct", "Nov", "Dec"].getD (m.month - 1).toNat ""

/-- The walked months: `end_month` from the (optional) end date's month,
defaulting to today's; `start_month` from the parsed start date's month, or
`add_months(end_month, -11)` when no start date was supplied (or it failed to
parse). -/
def chart_months (start_month end_date_month : Option Month) (today : Month) :
    List Month :=
  month_walk
    (start_month.getD (add_months (end_date_month.getD today) (-11)))
    (end_date_month.getD today)

/-- The `labels` / `revenue_data` pair of the monthly chart
(src/users/views.py:2410-2425). -/
def sales_by_client_chart (revenue_map : Month → ℚ)
    (start_month end_date_month : Option Month) (today : Month) :
    List String × List ℚ :=
  ((chart_months start_month end_date_month today).map month_label,
    (chart_months start_month end_date_month today).map revenue_map)

/-- `add_months` only depends on the month index. -/
lemma add_months_eq_idx (m : Month) (k : ℤ) :
    add_months m k
      = { year := (month_idx m + k) / 12,
          month := (month_idx m + k) % 12 + 1 } := by
  unfold add_months month_idx
  have h1 : m.year + (m.month - 1 + k) / 12
      = (12 * m.year + (m.month - 1) + k) / 12 := by omega
  have h2 : (m.month - 1 + k) % 12
      = (12 * m.year + (m.month - 1) + k) % 12 := by omega
  rw [h1, h2]

lemma add_months_idx (m : Month) (k : ℤ) :
    month_idx (add_months m k) = month_idx m + k := by
  rw [add_months_eq_idx]
  unfold month_idx
  simp only []
  omega

lemma add_months_valid (m : Month) (k : ℤ) : month_valid (add_months m k) := by
  unfold add_months month_valid
  constructor <;> simp only [] <;> omega

lemma add_months_zero (m : Month) (h : month_valid m) : add_months m 0 = m := by
  unfold add_months
  unfold month_valid at h
  have h1 : (m.month - 1 + 0) / 12 = 0 := by omega
  have h2 : (m.month - 1 + 0) % 12 = m.month - 1 := by omega
  rw [h1, h2]
  cases m
  simp

lemma add_months_add (m : Month) (j k : ℤ) :
    add_months (add_months m j) k = add_months m (j + k) := by
  rw [add_months_eq_idx, add_months_eq_idx m (j + k), add_months_idx]
  have : month_idx m + j + k = month_idx m + (j + k) := by ring
  rw [this]

lemma month_le_iff {a b : Month} (ha : month_valid a) (hb : month_valid b) :
    month_le a b = true ↔ month_idx a ≤ month_idx b := by
  unfold month_le month_idx
  unfold month_valid at ha hb
  simp only [Bool.or_eq_true, Bool.and_eq_true, decide_eq_true_eq]
  omega

lemma month_idx_inj {a b : Month} (ha : month_valid a) (hb : month_valid b)
    (h : month_idx a = month_idx b) : a = b := by
  cases a with
  | mk y1 m1 =>
    cases b with
    | mk y2 m2 =>
      unfold month_idx at h
      unfold month_valid at ha hb
      simp only at h ha hb
      simp only [Month.mk.injEq]
      omega

/-- The embedded while-loop enumerates exactly the months from `cur` to `stop`
inclusive, one step apart, provided the budget covers the trip count. -/
lemma month_walk_fuel_eq (fuel : Nat) :
    ∀ (cur stop : Month), month_valid cur → month_valid stop →
      month_idx stop - month_idx cur + 1 ≤ fuel →
      month_walk_fuel fuel cur stop
        = (List.range (month_idx stop - month_idx cur + 1).toNat).map
            (fun j : ℕ => add_months cur (j : ℤ)) := by
  induction fuel with
  | zero =>
    intro cur stop _ _ hfuel
    have : (month_idx stop - month_idx cur + 1).toNat = 0 := by omega
    rw [this]
    rfl
  | succ n ih =>
    intro cur stop hcur hstop hfuel
    rw [month_walk_fuel]
    by_cases hle : month_le cur stop
    · rw [if_pos hle]
      have hidx : month_idx cur ≤ month_idx stop := (month_le_iff hcur hstop).mp hle
      have hnextvalid : month_valid (add_months cur 1) := add_months_valid cur 1
      have hnextidx : month_idx (add_months cur 1) = month_idx cur + 1 :=
        add_months_idx cur 1
      have hrec := ih (add_months cur 1) stop hnextvalid hstop (by omega)
      rw [hrec, hnextidx]
      have hn : (month_idx stop - month_idx cur + 1).toNat
          = (month_idx stop - (month_idx cur + 1) + 1).toNat + 1 := by omega
      rw [hn, List.range_succ_eq_map]
      rw [List.map_cons, List.map_map]
      congr 1
      · exact (add_months_zero cur hcur).symm
      · apply List.map_congr_left
        intro j _
        simp only [Function.comp]
        rw [add_months_add]
        congr 1
        push_cast
        ring
    · rw [if_neg hle]
      have hidx : ¬ month_idx cur ≤ month_idx stop := fun hc =>
        hle ((month_le_iff hcur hstop).mpr hc)
      have : (month_idx stop - month_idx cur + 1).toNat = 0 := by omega
      rw [this]
      rfl

/-- C6: the monthly chart walks calendar months from the start month to the
end month inclusive — the walked list is exactly `start, start+1, ..., end`
(empty when the start month is after the end month), with no duplicate months,
one label and one revenue value per walked month — and when no start date is
supplied the walk covers exactly the 12 months ending at the end month (the
end date itself defaulting to today). -/
theorem claim_C6 (revenue_map : Month → ℚ)
    (start_month end_date_month : Option Month) (today : Month)
    (hs : ∀ m, start_month = some m → month_valid m)
    (he : ∀ m, end_date_month = some m → month_valid m)
    (ht : month_valid today) :
    (sales_by_client_chart revenue_map start_month end_date_month today).1
        = (chart_months start_month end_date_month today).map month_label
      ∧ (sales_by_client_chart revenue_map start_month end_date_month today).2
        = (chart_months start_month end_date_month today).map revenue_map
      ∧ chart_months start_month end_date_month today
          = (List.range
              ((month_idx (end_date_month.getD today)
                - month_idx (start_month.getD
                    (add_months (end_date_month.getD today) (-11))) + 1).toNat)).map
              (fun j : ℕ => add_months
                (start_month.getD (add_months (end_date_month.getD today) (-11)))
                (j : ℤ))
      ∧ (chart_months start_month end_date_month today).Nodup
      ∧ (start_month = none →
          (chart_months start_month end_date_month today).length = 12) := by
  have hendvalid : month_valid (end_date_month.getD today) := by
    cases end_date_month with
    | none => exact ht
    | some m => exact he m rfl
  have hstartvalid :
      month_valid (start_month.getD
        (add_months (end_date_month.getD today) (-11))) := by
    cases start_month with
    | none => exact add_months_valid _ _
    | some m => exact hs m rfl
  have hwalk := month_walk_fuel_eq
    (month_idx (end_date_month.getD today)
      - month_idx (start_month.getD
          (add_months (end_date_month.getD today) (-11))) + 1).toNat
    (start_month.getD (add_months (end_date_month.getD today) (-11)))
    (end_date_month.getD today) hstartvalid hendvalid (by omega)
  have hmonths : chart_months start_month end_date_month today
      = (List.range
          ((month_idx (end_date_month.getD today)
            - month_idx (start_month.getD
                (add_months (end_date_month.getD today) (-11))) + 1).toNat)).map
          (fun j : ℕ => add_months
            (start_month.getD (add_months (end_date_month.getD today) (-11)))
            (j : ℤ)) := by
    unfold chart_months month_walk
    exact hwalk
  refine ⟨rfl, rfl, hmonths, ?_, ?_⟩
  · rw [hmonths]
    refine List.Nodup.map_on ?_ (List.nodup_range _)
    intro x _ y _ hxy
    have hx := add_months_idx
      (start_month.getD (add_months (end_date_month.getD today) (-11))) x
    have hy := add_months_idx
      (start_month.getD (add_months (end_date_month.getD today) (-11))) y
    have : (x : ℤ) = y := by
      have := congrArg month_idx hxy
      omega
    exact_mod_cast this
  · intro hnone
    rw [hmonths, List.length_map, List.length_range]
    rw [hnone]
    simp only [Option.getD_none]
    rw [add_months_idx]
    omega

theorem claim_C6_witness :
    (∀ m, (none : Option Month) = some m → month_valid m)
      ∧ (∀ m, (some (Month.mk 2025 3) : Option Month) = some m → month_valid m)
      ∧ month_valid (Month.mk 2025 6)
      ∧ (chart_months none (some (Month.mk 2025 3)) (Month.mk 2025 6)).length = 12 :=
  have h1 : ∀ m, (none : Option Month) = some m → month_valid m := by
    intro m hm
    cases hm
  have h2 : ∀ m, (some (Month.mk 2025 3) : Option Month) = some m → month_valid m := by
    intro m hm
    cases hm
    constructor <;> norm_num
  have h3 : month_valid (Month.mk 2025 6) := by constructor <;> norm_num
  ⟨h1, h2, h3,
    (claim_C6 (fun _ => 0) none (some (Month.mk 2025 3)) (Month.mk 2025 6)
      h1 h2 h3).2.2.2.2 rfl⟩


/-! ### C7 — duplicate-email registration
Embeds `RegisterView.post` (src/users/views.py:131-202). -/

/-- The request body fields `RegisterView.post` reads (`data.get(...)` yields
`None` for an absent key). -/
structure RegisterInput where
  fullname : Option String
  email : Option String
  password : Option String
  confirm_password : Option String
  phone_number : Option String
deriving Repr, DecidableEq

/-- `RegisterView.post`: presence checks in order, password length and match
checks, the duplicate active-email check (line 166-167), then serializer
validation and user creation.  `UserSerializer.is_valid` and `make_password`
are framework code, taken as parameters; `serializer.errors` is an
input-dependent dict abbreviated to a fixed marker string (no claim concerns
it). -/
def register_post (serializer_valid : RegisterInput → Bool)
    (make_password : String → String) (db : AppDB) (inp : RegisterInput)
    (new_user_id : Nat) : Resp × AppDB :=
  if is_required inp.fullname then
    (⟨400, false, "Fullname is required."⟩, db)
  else if is_required inp.email then
    (⟨400, false, "Email is required."⟩, db)
  else if is_required inp.phone_number then
    (⟨400, false, "Phone number is required."⟩, db)
  else if is_required inp.password then
    (⟨400, false, "Password is required."⟩, db)
  else if (inp.password.getD "").length < 8 then
    (⟨400, false, "Password must be at least 8 characters long."⟩, db)
  else if inp.password ≠ inp.confirm_password then
    (⟨400, false, "Passwords do not match."⟩, db)
  else if db.users.any fun u => u.email == inp.email && u.is_active && !u.is_deleted then
    (⟨400, false, "Email already exists."⟩, db)
  else if serializer_valid inp then
    (⟨200, true, "User registered successfully."⟩,
      { db with
        users := db.users ++
          [{ user_id := new_user_id, fullname := inp.fullname.getD "",
             email := inp.email, password := inp.password.map make_password,
             phone_number := inp.phone_number, is_active := true,
             is_admin := false, is_deleted := false }] })
  else (⟨400, false, "serializer errors"⟩, db)

/-- C7: registering with an email for which an active, non-deleted user
already exists — the request being otherwise well-formed, i.e. past the
field-presence and password checks that precede the duplicate check — returns
HTTP 400 with "Email already exists." and leaves the whole database state
unchanged. -/
theorem claim_C7 (serializer_valid : RegisterInput → Bool)
    (make_password : String → String) (db : AppDB) (inp : RegisterInput)
    (new_user_id : Nat)
    (h1 : is_required inp.fullname = false)
    (h2 : is_required inp.email = false)
    (h3 : is_required inp.phone_number = false)
    (h4 : is_required inp.password = false)
    (h5 : ¬ (inp.password.getD "").length < 8)
    (h6 : inp.password = inp.confirm_password)
    (h7 : ∃ u ∈ db.users, u.email = inp.email ∧ u.is_active = true ∧ u.is_deleted = false) :
    register_post serializer_valid make_password db inp new_user_id
      = (⟨400, false, "Email already exists."⟩, db) := by
  have hany : (db.users.any fun u =>
      u.email == inp.email && u.is_active && !u.is_deleted) = true := by
    rw [List.any_eq_true]
    obtain ⟨u, hu, he, ha, hd⟩ := h7
    exact ⟨u, hu, by simp [he, ha, hd]⟩
  unfold register_post
  rw [h1, h2, h3, h4, hany, if_neg h5,
    if_neg (fun hne : inp.password ≠ inp.confirm_password => hne h6)]
  simp

def c7_user : User :=
  { user_id := 1, fullname := "Jane Roe", email := some "jane@example.com",
    password := some "hashed", phone_number := some "123",
    is_active := true, is_admin := false, is_deleted := false }

def c7_db : AppDB :=
  { users := [c7_user], clients := [], categories := [], products := [],
    orders := [], invoices := [], expenses := [], logs := [] }

def c7_input : RegisterInput :=
  { fullname := some "Jane Again", email := some "jane@example.com",
    password := some "password1", confirm_password := some "password1",
    phone_number := some "456" }

theorem claim_C7_witness :
    register_post (fun _ => true) (fun s => s) c7_db c7_input 2
      = (⟨400, false, "Email already exists."⟩, c7_db) :=
  claim_C7 (fun _ => true) (fun s => s) c7_db c7_input 2
    (by decide) (by decide) (by decide) (by decide) (by decide) rfl
    ⟨c7_user, by decide, rfl, rfl, rfl⟩

/-! ### C8 — login
Embeds `LoginView.post` (src/users/views.py:259-315). -/

/-- The part of the login response data the claim is about: the access
token. -/
structure LoginResp where
  status : Nat
  success : Bool
  message : String
  token : Option String
deriving Repr, DecidableEq

/-- `LoginView.post`: presence checks, then the first user whose email,
admin flag (the `is_admin` branch pair of filters), active and non-deleted
flags match; a hash check decides between 200-with-token and 401
"Invalid password.".  `check_password` (Django hash verification, false on a
`NULL` stored hash) and `get_user_token` (JWT issuance) are framework code,
taken as parameters.  The login-history insert and the non-persisted
`last_login` attribute write touch no modelled field. -/
def login_post (check_password : String → Option String → Bool)
    (get_user_token : User → String) (db : AppDB)
    (email password : Option String) (is_admin : Bool) : LoginResp :=
  if is_required email then ⟨400, false, "Email is required.", none⟩
  else if is_required password then ⟨400, false, "Password is required.", none⟩
  else
    match db.users.find? fun u =>
        u.email == email && u.is_admin == is_admin && u.is_active && !u.is_deleted with
    | some u =>
      if check_password (password.getD "") u.password then
        ⟨200, true, "User logged in successfully.", some (get_user_token u)⟩
      else ⟨401, false, "Invalid password.", none⟩
    | none => ⟨401, false, "User not found.", none⟩

/-- C8: when email and password are supplied and an active, non-deleted user
with that email (and the requested admin flag) is found, a correct password
returns HTTP 200 with the access token in the response data, and a wrong
password returns HTTP 401 with "Invalid password.". -/
theorem claim_C8 (check_password : String → Option String → Bool)
    (get_user_token : User → String) (db : AppDB)
    (email password : Option String) (is_admin : Bool) (u : User)
    (h1 : is_required email = false)
    (h2 : is_required password = false)
    (hfind : (db.users.find? fun u =>
        u.email == email && u.is_admin == is_admin && u.is_active && !u.is_deleted)
      = some u) :
    (check_password (password.getD "") u.password = true →
      login_post check_password get_user_token db email password is_admin
        = ⟨200, true, "User logged in successfully.", some (get_user_token u)⟩)
    ∧ (check_password (password.getD "") u.password = false →
      login_post check_password get_user_token db email password is_admin
        = ⟨401, false, "Invalid password.", none⟩) := by
  constructor <;> intro hc <;>
    · unfold login_post
      rw [h1, h2]
      simp only [Bool.false_eq_true, if_false]
      rw [hfind]
      simp [hc]

def c8_user : User :=
  { user_id := 3, fullname := "Sam Lee", email := some "sam@example.com",
    password := some "hash:secret123", phone_number := none,
    is_active := true, is_admin := false, is_deleted := false }

def c8_db : AppDB :=
  { users := [c8_user], clients := [], categories := [], products := [],
    orders := [], invoices := [], expenses := [], logs := [] }

def c8_check (raw : String) (stored : Option String) : Bool :=
  stored == some ("hash:" ++ raw)

theorem claim_C8_witness :
    login_post c8_check (fun u => "token-" ++ u.fullname) c8_db
        (some "sam@example.com") (some "secret123") false
      = ⟨200, true, "User logged in successfully.", some "token-Sam Lee"⟩
    ∧ login_post c8_check (fun u => "token-" ++ u.fullname) c8_db
        (some "sam@example.com") (some "wrongpass") false
      = ⟨401, false, "Invalid password.", none⟩ :=
  ⟨(claim_C8 c8_check (fun u => "token-" ++ u.fullname) c8_db
      (some "sam@example.com") (some "secret123") false c8_user
      (by decide) (by decide) (by decide)).1 (by decide),
   (claim_C8 c8_check (fun u => "token-" ++ u.fullname) c8_db
      (some "sam@example.com") (some "wrongpass") false c8_user
      (by decide) (by decide) (by decide)).2 (by decide)⟩


/-! ### C9 — blanket exception handling
Embeds the exception paths of the cited handlers:
`ProductCategoryListView.get` (src/products/views.py:79-86),
`ProductCategoryDetailView.delete` (src/products/views.py:382-400) and —
because its `except` clause deviates — `AddClientView.post`
(src/users/views.py:900-928).  A handler body wrapped in `try/except` becomes
a function of the body's outcome: `.ok` carries the response the body
returned, `.error` the exception it raised. -/

/-- A raised Python exception: the ORM's `DoesNotExist`, or anything else,
carrying its `str(e)` text. -/
inductive PyExc where
  | does_not_exist : String → PyExc
  | other : String → PyExc
deriving Repr, DecidableEq

/-- `str(e)`. -/
def str_of_exc : PyExc → String
  | .does_not_exist s => s
  | .other s => s

/-- The blanket catch of `ProductCategoryListView.get` (lines 85-86):
HTTP 400 with `str(e)`. -/
def product_category_list_get (body : Except PyExc Resp) : Resp :=
  match body with
  | .ok r => r
  | .error e => ⟨400, false, str_of_exc e⟩

/-- The blanket catch of `AddClientView.post` (src/users/views.py:927-928): it
returns the exception text with `status.HTTP_201_CREATED`. -/
def add_client_post_wrapper (body : Except PyExc Resp) : Resp :=
  match body with
  | .ok r => r
  | .error e => ⟨201, false, str_of_exc e⟩

/-- What a handler places in the response's `message` field: normally the
string `str(e)`, but the outer catch of `ProductCategoryDetailView.delete`
(src/products/views.py:400) writes `{"message": e}` — the raw exception
object, which DRF's JSON encoder cannot serialize. -/
inductive MessageVal where
  | text : String → MessageVal
  | exception_object : PyExc → MessageVal
deriving Repr, DecidableEq

/-- The response of a handler whose `message` field may hold a non-string
value. -/
structure ObjResp where
  status : Nat
  success : Bool
  message : MessageVal
deriving Repr, DecidableEq

/-- The inner `except ProductCategory.DoesNotExist` of
`ProductCategoryDetailView.delete` (lines 388-397) followed by its outer
blanket catch (lines 399-400): `DoesNotExist` becomes 404 "Category Not
Found"; any other exception is returned as HTTP 400 whose `message` is the
raw exception object `e` itself — not `str(e)` as in the other handlers. -/
def product_category_detail_delete_wrapper (body : Except PyExc Resp) : ObjResp :=
  match body with
  | .ok r => ⟨r.status, r.success, .text r.message⟩
  | .error (.does_not_exist _) => ⟨404, false, .text "Category Not Found"⟩
  | .error e => ⟨400, false, .exception_object e⟩

/-- `ProductCategory.objects.get(...)` (lines 389-390): raises `DoesNotExist`
when no row matches. -/
def product_category_get_or_raise (db : AppDB) (uid cid : Nat) :
    Except PyExc ProductCategory :=
  match db.categories.find? fun c =>
      c.category_id == cid && c.user_id == some uid && !c.is_deleted with
  | some c => Except.ok c
  | none => Except.error (.does_not_exist "ProductCategory matching query does not exist.")

/-- `ProductCategoryDetailView.delete` in full: fetch (raising on a miss),
hard-delete, 200; exceptions routed through the two catches. -/
def product_category_detail_delete (db : AppDB) (uid cid : Nat) : ObjResp × AppDB :=
  (product_category_detail_delete_wrapper
      ((product_category_get_or_raise db uid cid).map fun _ =>
        (⟨200, true, "Product Category Deleted"⟩ : Resp)),
    match product_category_get_or_raise db uid cid with
    | Except.ok _ =>
      { db with categories := db.categories.filter fun c => !(c.category_id == cid) }
    | Except.error _ => db)

/-- C9 as stated, at the cited handlers: whenever the body raises, the
response is HTTP 400 whose message is the string `str(e)` — no other status
or message shape. -/
def blanket_400_claim : Prop :=
  (∀ (body : Except PyExc Resp) (e : PyExc), body = Except.error e →
    product_category_list_get body = ⟨400, false, str_of_exc e⟩)
  ∧ (∀ (body : Except PyExc Resp) (e : PyExc), body = Except.error e →
    product_category_detail_delete_wrapper body = ⟨400, false, .text (str_of_exc e)⟩)
  ∧ (∀ (body : Except PyExc Resp) (e : PyExc), body = Except.error e →
    add_client_post_wrapper body = ⟨400, false, str_of_exc e⟩)

/-- C9 counterexample: a `DoesNotExist` raised inside
`ProductCategoryDetailView.delete` produces 404 "Category Not Found" (not 400
with `str(e)`), so the uniform-400-with-`str(e)` claim is false (its blanket
catch passing the raw exception object, and `AddClientView.post` returning
HTTP 201, refute it independently). -/
theorem claim_C9_counterexample : ¬ blanket_400_claim := by
  rintro ⟨-, h2, -⟩
  have h := h2 (Except.error (.does_not_exist "boom")) (.does_not_exist "boom") rfl
  have hval : product_category_detail_delete_wrapper
      (Except.error (.does_not_exist "boom"))
      = ⟨404, false, .text "Category Not Found"⟩ := rfl
  rw [hval] at h
  cases h

/-- C9 amended: every handler catches exceptions from its body and returns
the failure in the response rather than propagating it, but the uniform
400-with-`str(e)` shape fails three ways: `AddClientView.post`'s blanket
catch returns HTTP 201 (with `str(e)`); `ProductCategoryDetailView.delete`
maps `DoesNotExist` to 404 "Category Not Found" in its inner handler, and its
outer catch returns HTTP 400 whose `message` is the raw exception object, not
the string `str(e)` (DRF's JSON renderer cannot serialize it — that rendering
failure happens downstream of the handler and is outside the embedding).
`ProductCategoryListView.get`'s catch does return 400 with `str(e)`. -/
theorem claim_C9_amended :
    (∀ (body : Except PyExc Resp) (e : PyExc), body = Except.error e →
      product_category_list_get body = ⟨400, false, str_of_exc e⟩)
    ∧ (∀ (body : Except PyExc Resp) (e : PyExc), body = Except.error e →
      add_client_post_wrapper body = ⟨201, false, str_of_exc e⟩)
    ∧ (∀ (body : Except PyExc Resp) (s : String),
        body = Except.error (.does_not_exist s) →
      product_category_detail_delete_wrapper body
        = ⟨404, false, .text "Category Not Found"⟩)
    ∧ (∀ (body : Except PyExc Resp) (s : String), body = Except.error (.other s) →
      product_category_detail_delete_wrapper body
          = ⟨400, false, .exception_object (.other s)⟩
        ∧ ∀ t : String, (product_category_detail_delete_wrapper body).message ≠ .text t)
    ∧ (∀ (db : AppDB) (uid cid : Nat),
        (db.categories.find? fun c =>
          c.category_id == cid && c.user_id == some uid && !c.is_deleted) = none →
      (product_category_detail_delete db uid cid).1
        = ⟨404, false, .text "Category Not Found"⟩) := by
  refine ⟨?_, ?_, ?_, ?_, ?_⟩
  · rintro body e rfl
    rfl
  · rintro body e rfl
    rfl
  · rintro body s rfl
    rfl
  · rintro body s rfl
    exact ⟨rfl, fun t h => by cases h⟩
  · intro db uid cid hfind
    unfold product_category_detail_delete product_category_get_or_raise
    rw [hfind]
    rfl

theorem claim_C9_amended_witness :
    product_category_list_get (Except.error (.other "boom")) = ⟨400, false, "boom"⟩
    ∧ add_client_post_wrapper (Except.error (.other "boom2")) = ⟨201, false, "boom2"⟩
    ∧ product_category_detail_delete_wrapper
        (Except.error (.does_not_exist "missing"))
        = ⟨404, false, .text "Category Not Found"⟩
    ∧ product_category_detail_delete_wrapper (Except.error (.other "late"))
        = ⟨400, false, .exception_object (.other "late")⟩
    ∧ (product_category_detail_delete_wrapper
        (Except.error (.other "late"))).message ≠ .text "late"
    ∧ (product_category_detail_delete
        { users := [], clients := [], categories := [], products := [],
          orders := [], invoices := [], expenses := [], logs := [] } 1 5).1
        = ⟨404, false, .text "Category Not Found"⟩ :=
  ⟨claim_C9_amended.1 _ (.other "boom") rfl,
   claim_C9_amended.2.1 _ (.other "boom2") rfl,
   claim_C9_amended.2.2.1 _ "missing" rfl,
   (claim_C9_amended.2.2.2.1 _ "late" rfl).1,
   (claim_C9_amended.2.2.2.1 _ "late" rfl).2 "late",
   claim_C9_amended.2.2.2.2 _ 1 5 rfl⟩

/-! ### C10 — the dashboard GET's write effects
Embeds the side-effecting loop of `HomePageView.get`
(src/products/views.py:2065-2143, loop at 2103-2119).  The aggregate
computations before and after the loop only read; the loop creates one
`ActivityLog` row and flips the status of each overdue pending purchase
invoice.  `float(invoice.total)` raises `TypeError` when the total is `NULL`,
which lands in the blanket 400 catch; the writes already made stick (each
create/save autocommits — there is no transaction). -/

/-- The queryset of the loop (lines 2103-2104): the user's non-deleted
purchase invoices with status exactly "Pending" and a payment_due before
today.  Django evaluates it once at the head of the loop, so later status
updates do not affect the iteration. -/
def overdue_targets (invs : List Invoice) (uid : Nat) (today : ℤ) : List Invoice :=
  invs.filter fun i =>
    i.user_id == uid && i.invoice_type == "purchase"
      && i.invoice_status == "Pending" && !i.is_deleted
      && (match i.payment_due with
          | some d => decide (d < today)
          | none => false)

/-- `invoice.status = "Overdue"; invoice.save()` (lines 2118-2119): update the
row by primary key. -/
def mark_overdue (invs : List Invoice) (iid : Nat) : List Invoice :=
  invs.map fun j =>
    if j.invoice_id == iid then { j with invoice_status := "Overdue" } else j

/-- The `ActivityLog.objects.create(...)` of the loop (lines 2107-2116); a
missing `invoice_number` prints as "None" in the f-string. -/
def overdue_log (uid : Nat) (i : Invoice) (amount : ℚ) : ActivityLog :=
  { user_id := uid, action := "invoice_overdue", title := "Invoice Reminder",
    description := "invoice #" ++ i.invoice_number.getD "None" ++ " due soon",
    extra_invoice_id := some i.invoice_id, extra_amount := some amount }

/-- The loop over the (pre-evaluated) target list: each iteration first builds
the log's `extra_data` — `float(invoice.total)` raising `TypeError` on a
`NULL` total, which aborts the pass with everything written so far kept — then
creates the log row and saves the status flip. -/
def overdue_loop (uid : Nat) :
    List Invoice → List Invoice → List ActivityLog
      → List Invoice × List ActivityLog × Bool
  | [], invs, logs => (invs, logs, true)
  | i :: rest, invs, logs =>
    match i.total with
    | none => (invs, logs, false)
    | some t =>
      overdue_loop uid rest (mark_overdue invs i.invoice_id)
        (logs ++ [overdue_log uid i t])

/-- `HomePageView.get`, restricted to its state effects and status code: 200
from the success path, 400 from the blanket catch when the loop raised. -/
def home_page_get (db : AppDB) (uid : Nat) (today : ℤ) : Nat × AppDB :=
  match overdue_loop uid (overdue_targets db.invoices uid today) db.invoices db.logs with
  | (invs2, logs2, ok) =>
    (if ok then 200 else 400, { db with invoices := invs2, logs := logs2 })

/-- C10 as stated: the dashboard GET updates the status of every overdue
pending purchase invoice of the user to "Overdue" and creates an ActivityLog
record for it. -/
def home_page_marks_all_claim : Prop :=
  ∀ (db : AppDB) (uid : Nat) (today : ℤ),
    ∀ i ∈ overdue_targets db.invoices uid today,
      (∀ j ∈ (home_page_get db uid today).2.invoices,
        j.invoice_id = i.invoice_id → j.invoice_status = "Overdue")
      ∧ ∃ l ∈ (home_page_get db uid today).2.logs,
          l.action = "invoice_overdue" ∧ l.extra_invoice_id = some i.invoice_id

def c10_invoice : Invoice :=
  { invoice_id := 1, user_id := 1, client_id := none, invoice_number := some "B-1",
    invoice_type := "purchase", invoice_status := "Pending",
    issue_date := some 0, payment_due := some 0, total := none,
    is_deleted := false }

def c10_db : AppDB :=
  { users := [], clients := [], categories := [], products := [],
    orders := [], invoices := [c10_invoice], expenses := [], logs := [] }

/-- C10 counterexample: a single overdue pending purchase invoice whose
`total` is `NULL` makes `float(invoice.total)` raise before anything is
written: the handler returns 400 and the invoice keeps status "Pending", so
the claim as stated is false. -/
theorem claim_C10_counterexample : ¬ home_page_marks_all_claim := by
  intro hclaim
  have hmem : c10_invoice ∈ overdue_targets c10_db.invoices 1 5 := by decide
  have h := (hclaim c10_db 1 5 c10_invoice hmem).1 c10_invoice (by decide) rfl
  exact absurd h (by decide)

/-- Pointwise form of the accumulated status flips. -/
def status_update (ids : List Nat) (j : Invoice) : Invoice :=
  if ids.contains j.invoice_id then { j with invoice_status := "Overdue" } else j

lemma mark_then_update (iid : Nat) (ids : List Nat) (j : Invoice) :
    status_update ids
        (if j.invoice_id == iid then { j with invoice_status := "Overdue" } else j)
      = status_update (iid :: ids) j := by
  by_cases h : j.invoice_id = iid
  · subst h
    simp [status_update, List.contains_cons]
  · simp [status_update, List.contains_cons, h]

lemma overdue_loop_spec (uid : Nat) (targets : List Invoice) :
    ∀ (invs : List Invoice) (logs : List ActivityLog),
      (∀ i ∈ targets, i.total ≠ none) →
      overdue_loop uid targets invs logs
        = (invs.map (status_update (targets.map Invoice.invoice_id)),
            logs ++ targets.map (fun i => overdue_log uid i (i.total.getD 0)),
            true) := by
  induction targets with
  | nil =>
    intro invs logs _
    have hmap : invs.map (status_update []) = invs := by
      have hid : invs.map (status_update []) = invs.map id :=
        List.map_congr_left fun j _ => by simp [status_update]
      rw [hid, List.map_id]
    simp only [overdue_loop, List.map_nil, List.append_nil, hmap]
  | cons i rest ih =>
    intro invs logs hall
    cases ht : i.total with
    | none => exact absurd ht (hall i (List.mem_cons_self i rest))
    | some t =>
      simp only [overdue_loop, ht]
      rw [ih (mark_overdue invs i.invoice_id) (logs ++ [overdue_log uid i t])
        (fun x hx => hall x (List.mem_cons_of_mem i hx))]
      simp only [Prod.mk.injEq]
      refine ⟨?_, ?_, trivial⟩
      · show (mark_overdue invs i.invoice_id).map
            (status_update (rest.map Invoice.invoice_id))
          = invs.map (status_update ((i :: rest).map Invoice.invoice_id))
        unfold mark_overdue
        rw [List.map_map, List.map_cons]
        apply List.map_congr_left
        intro j _
        simp only [Function.comp]
        exact mark_then_update i.invoice_id (rest.map Invoice.invoice_id) j
      · show (logs ++ [overdue_log uid i t])
            ++ rest.map (fun x => overdue_log uid x (x.total.getD 0))
          = logs ++ (i :: rest).map (fun x => overdue_log uid x (x.total.getD 0))
        rw [List.map_cons, List.append_assoc]
        simp [ht]

/-- C10 amended: the dashboard GET is indeed not read-only — provided every
overdue pending purchase invoice of the user has a non-null total, it returns
200, flips exactly those invoices' status to "Overdue" (all their other
fields, and every other invoice, unchanged), appends one
`invoice_overdue` ActivityLog per such invoice, and leaves every other table
untouched.  When such an invoice has a `NULL` total, `float(None)` raises
mid-pass and the handler returns 400 with that invoice left unchanged. -/
theorem claim_C10_amended (db : AppDB) (uid : Nat) (today : ℤ)
    (h : ∀ i ∈ overdue_targets db.invoices uid today, i.total ≠ none) :
    (home_page_get db uid today).1 = 200
    ∧ (home_page_get db uid today).2.invoices
        = db.invoices.map
            (status_update ((overdue_targets db.invoices uid today).map
              Invoice.invoice_id))
    ∧ (home_page_get db uid today).2.logs
        = db.logs ++ (overdue_targets db.invoices uid today).map
            (fun i => overdue_log uid i (i.total.getD 0))
    ∧ (home_page_get db uid today).2.users = db.users
    ∧ (home_page_get db uid today).2.clients = db.clients
    ∧ (home_page_get db uid today).2.categories = db.categories
    ∧ (home_page_get db uid today).2.products = db.products
    ∧ (home_page_get db uid today).2.orders = db.orders
    ∧ (home_page_get db uid today).2.expenses = db.expenses := by
  have hred : home_page_get db uid today
      = (200,
          { db with
            invoices := db.invoices.map
              (status_update ((overdue_targets db.invoices uid today).map
                Invoice.invoice_id)),
            logs := db.logs ++ (overdue_targets db.invoices uid today).map
              (fun i => overdue_log uid i (i.total.getD 0)) }) := by
    unfold home_page_get
    rw [overdue_loop_spec uid (overdue_targets db.invoices uid today)
      db.invoices db.logs h]
    rfl
  rw [hred]
  exact ⟨rfl, rfl, rfl, rfl, rfl, rfl, rfl, rfl, rfl⟩

def c10_invoice2 : Invoice :=
  { invoice_id := 2, user_id := 1, client_id := none, invoice_number := some "B-2",
    invoice_type := "purchase", invoice_status := "Pending",
    issue_date := some 0, payment_due := some 1, total := some 40,
    is_deleted := false }

def c10_db2 : AppDB :=
  { users := [], clients := [], categories := [], products := [],
    orders := [], invoices := [c10_invoice2], expenses := [], logs := [] }

theorem claim_C10_amended_witness :
    (home_page_get c10_db2 1 5).1 = 200
    ∧ (home_page_get c10_db2 1 5).2.logs
        = (overdue_targets c10_db2.invoices 1 5).map
            (fun i => overdue_log 1 i (i.total.getD 0)) :=
  ⟨(claim_C10_amended c10_db2 1 5 (by decide)).1,
   (claim_C10_amended c10_db2 1 5 (by decide)).2.2.1⟩

end Accounting
